import Mathlib

/-!
Shallow embedding of the MathForge HTTP service (`src/main.py`) and proofs
about its behaviour.

Modelling conventions:
* Python floats are idealised as exact rationals (`ℚ`) where the source only
  performs field operations, and as reals (`ℝ`) where `math.sqrt` or `math.pi`
  enter; `round(x, n)` is modelled as exact rounding of the rational/real
  value to `n` decimal places.
* A handler that answers a 400 error instead of computing is modelled by
  `Option`/a dedicated error constructor (`none` = rejected with 400).
* Python exceptions are modelled explicitly: `int(s)` is `pyInt?` (returning
  `none` for `ValueError`), list indexing is `List.getElem?` (`none` =
  `IndexError`), dictionary lookup is an explicit `Option` (`none` =
  `KeyError`).
* The quiz answer-key string `"fam_p1_p2_..."` is modelled as its list of
  delimiter-separated fields (`List String`); the join/split pair of the
  source is the identity on such field lists because parameter renderings
  (decimal integers) never contain the `_` delimiter.
-/

namespace MathForge

/-- `round(q, 6)` of Python on an exact rational value. -/
def round6q (q : ℚ) : ℚ := (round (q * 1000000) : ℤ) / 1000000

/-- `round(x, 6)` of Python on an exact real value. -/
noncomputable def round6 (x : ℝ) : ℝ := ((round (x * 1000000) : ℤ) : ℝ) / 1000000

/-- `round(x, 2)` of Python on an exact real value. -/
noncomputable def round2 (x : ℝ) : ℝ := ((round (x * 100) : ℤ) : ℝ) / 100

/-! ### Audit log (`log_query`, `src/main.py` lines 30-38)

The global `query_history` list: the new entry is appended at the end and,
when the length then exceeds 100, `pop(0)` removes the oldest entry. -/

/-- One `log_query` call on the current history `hist`. -/
def log_query {α : Type} (hist : List α) (e : α) : List α :=
  if 100 < (hist ++ [e]).length then (hist ++ [e]).drop 1 else hist ++ [e]

/-! ### Linear solver (`solve_linear`, lines 113-142) -/

/-- `solve_linear`: rejects `a = 0` with a 400 error, otherwise reports
`x = round(-b/a, 6)`. -/
def solve_linear (a b : ℚ) : Option ℚ :=
  if a = 0 then none else some (round6q (-b / a))

/-! ### Quadratic solver (`solve_quadratic`, lines 144-211) -/

/-- The `solutions` object of the quadratic response. -/
inductive QuadSolutions : Type
  | twoReal (x1 x2 : ℝ)
  | oneReal (x : ℝ)
  | complexPair (re im : ℝ)

/-- The quadratic response: the displayed (rounded) discriminant plus the
solutions object. -/
structure QuadResponse : Type where
  discriminant : ℚ
  solutions : QuadSolutions

/-- `solve_quadratic`: rejects `a = 0`, computes `Δ = b² - 4ac` exactly,
branches on the sign of the unrounded `Δ`, and rounds every reported number
to 6 decimal places. -/
noncomputable def solve_quadratic (a b c : ℚ) : Option QuadResponse :=
  if a = 0 then none
  else
    let d : ℚ := b ^ 2 - 4 * a * c
    some
      { discriminant := round6q d
        solutions :=
          if 0 < d then
            .twoReal (round6 ((-(b : ℝ) + Real.sqrt (d : ℚ)) / (2 * a)))
              (round6 ((-(b : ℝ) - Real.sqrt (d : ℚ)) / (2 * a)))
          else if d = 0 then .oneReal (round6 (-(b : ℝ) / (2 * a)))
          else
            .complexPair (round6 (-(b : ℝ) / (2 * a)))
              (round6 (Real.sqrt (-(d : ℚ)) / (2 * a))) }

/-! ### Geometry (lines 214-321)

Each handler reads its dimensions (absent fields default to `0`), rejects
non-positive required dimensions with a 400 error, and otherwise returns the
rounded derived metrics. -/

/-- Response of `POST /api/geometry/circle`. -/
structure CircleResponse : Type where
  radius : ℚ
  area : ℝ
  circumference : ℝ
  diameter : ℚ

/-- `circle` (lines 214-233). -/
noncomputable def circle (radius : ℚ) : Option CircleResponse :=
  if radius ≤ 0 then none
  else
    some
      { radius := radius
        area := round6 (Real.pi * (radius : ℝ) ^ 2)
        circumference := round6 (2 * Real.pi * (radius : ℝ))
        diameter := round6q (2 * radius) }

/-- Response of `POST /api/geometry/rectangle`. -/
structure RectangleResponse : Type where
  length : ℚ
  width : ℚ
  area : ℚ
  perimeter : ℚ
  diagonal : ℝ

/-- `rectangle` (lines 235-256). -/
noncomputable def rectangle (length width : ℚ) : Option RectangleResponse :=
  if length ≤ 0 ∨ width ≤ 0 then none
  else
    some
      { length := length
        width := width
        area := round6q (length * width)
        perimeter := round6q (2 * (length + width))
        diagonal := round6 (Real.sqrt ((length : ℝ) ^ 2 + (width : ℝ) ^ 2)) }

/-- Response of `POST /api/geometry/triangle`. -/
structure TriangleResponse : Type where
  base : ℚ
  height : ℚ
  area : ℚ
  perimeter : ℚ
  deriving DecidableEq

/-- `triangle` (lines 258-280): `side_a` and `side_b` default to `base` when
absent.  Only `base` and `height` are checked for positivity; the sides enter
the perimeter unchecked. -/
def triangle (base height : ℚ) (side_a? side_b? : Option ℚ) : Option TriangleResponse :=
  let side_a := side_a?.getD base
  let side_b := side_b?.getD base
  if base ≤ 0 ∨ height ≤ 0 then none
  else
    some
      { base := base
        height := height
        area := round6q (1 / 2 * base * height)
        perimeter := round6q (base + side_a + side_b) }

/-- Response of `POST /api/geometry/cube`. -/
structure CubeResponse : Type where
  side : ℚ
  volume : ℚ
  surface_area : ℚ
  space_diagonal : ℝ

/-- `cube` (lines 282-301). -/
noncomputable def cube (side : ℚ) : Option CubeResponse :=
  if side ≤ 0 then none
  else
    some
      { side := side
        volume := round6q (side ^ 3)
        surface_area := round6q (6 * side ^ 2)
        space_diagonal := round6 ((side : ℝ) * Real.sqrt 3) }

/-- Response of `POST /api/geometry/sphere`. -/
structure SphereResponse : Type where
  radius : ℚ
  volume : ℝ
  surface_area : ℝ

/-- `sphere` (lines 303-321). -/
noncomputable def sphere (radius : ℚ) : Option SphereResponse :=
  if radius ≤ 0 then none
  else
    some
      { radius := radius
        volume := round6 (4 / 3 * Real.pi * (radius : ℝ) ^ 3)
        surface_area := round6 (4 * Real.pi * (radius : ℝ) ^ 2) }

/-! ### Statistics: the mode computation (`statistics`, lines 323-373)

`freq = Counter(dataset)`, `max_freq = max(freq.values())`,
`mode_val = [k for k, v in freq.items() if v == max_freq]`, and the response
field is `mode_val if len(mode_val) < n else "No mode"`.  Only equality of
samples matters for the mode, so the sample type is kept abstract. -/

/-- `max(freq.values())`: the largest multiplicity occurring in `l` (each
key's multiplicity appears in `l.map (l.count ·)` as often as the key). -/
def maxFreq {α : Type} [DecidableEq α] (l : List α) : ℕ :=
  (l.map fun x => l.count x).foldr max 0

/-- `mode_val`: the distinct values of `l` whose multiplicity is maximal,
one representative per distinct value. -/
def modeVal {α : Type} [DecidableEq α] (l : List α) : List α :=
  l.dedup.filter fun x => l.count x == maxFreq l

/-- The `mode` field of the statistics response: the list of modes, or the
string `"No mode"` when every value is tied. -/
def modeField {α : Type} [DecidableEq α] (l : List α) : List α ⊕ String :=
  if (modeVal l).length < l.length then .inl (modeVal l) else .inr "No mode"

/-- The statistics endpoint guard plus its `mode` field: an empty dataset is
rejected with a 400 error before computation. -/
def statisticsMode {α : Type} [DecidableEq α] (l : List α) : Option (List α ⊕ String) :=
  if l.isEmpty then none else some (modeField l)

/-! ### Python `int(...)` on a string

`int(s)` for a decimal literal: an optional leading minus sign followed by at
least one ASCII digit; anything else raises `ValueError` (modelled as
`none`). -/

/-- The numeric value of a decimal digit character, if it is one. -/
def charDigit? (c : Char) : Option ℕ :=
  if '0' ≤ c ∧ c ≤ '9' then some (c.toNat - '0'.toNat) else none

/-- Left-to-right accumulation of decimal digits; `none` on a non-digit. -/
def digitsVal? : List Char → ℕ → Option ℕ
  | [], acc => some acc
  | c :: rest, acc =>
    match charDigit? c with
    | none => none
    | some d => digitsVal? rest (acc * 10 + d)

/-- A non-empty all-digit character list, read as a natural number. -/
def parseNatChars? (cs : List Char) : Option ℕ :=
  if cs.isEmpty then none else digitsVal? cs 0

/-- Python `int(s)`: `none` models the `ValueError` raised on a malformed
decimal literal. -/
def pyInt? (s : String) : Option ℤ :=
  match s.data with
  | '-' :: rest => (parseNatChars? rest).map fun n => -(n : ℤ)
  | cs => (parseNatChars? cs).map fun n => (n : ℤ)

/-! ### Quiz generation (`generate_quiz`, lines 376-425)

The random draws (`randint`, `choice`) are passed in as parameters:
`a1 b1 op` for the arithmetic family (`randint(1,100)` twice and a choice
among add/subtract/multiply), `a2 b2` for algebra (`randint(1,10)`,
`randint(-20,20)`), and `r` for geometry (`randint(1,20)`).  The answer-key
string `f"{fam}_{p1}_..."` is kept as its field list. -/

/-- The quiz response body: question type, answer-key fields, difficulty. -/
structure QuizResponse : Type where
  qtype : String
  answer_id : List String
  difficulty : String
  deriving DecidableEq

/-- `generate_quiz` for a resolved `quiz_type`: an unrecognized type falls
off the `elif` chain and the handler returns `None` (modelled as `none`). -/
def generate_quiz (quiz_type : String) (a1 b1 : ℤ) (op : String) (a2 b2 r : ℤ) :
    Option QuizResponse :=
  if quiz_type = "arithmetic" then
    some
      { qtype := "arithmetic"
        answer_id := ["arithmetic", toString a1, toString b1, op]
        difficulty := "easy" }
  else if quiz_type = "algebra" then
    some
      { qtype := "linear_equation"
        answer_id := ["algebra", toString a2, toString b2]
        difficulty := "medium" }
  else if quiz_type = "geometry" then
    some
      { qtype := "geometry"
        answer_id := ["circle", toString r]
        difficulty := "medium" }
  else none

/-! ### Quiz validation (`validate_quiz`, lines 427-463) -/

/-- The correct answer re-derived from an answer key: a rational value for
the arithmetic and algebra families, `round(pi * r**2, 2)` for `circle`. -/
inductive CorrectAnswer : Type
  | num (q : ℚ)
  | circleArea (r : ℤ)
  deriving DecidableEq

/-- Outcome of re-deriving the correct answer from the answer-key fields,
with the error channel of the source distinguished:
`badRequest` = a 400 response (explicit `Invalid answer_id` return, or a
`ValueError`/`ZeroDivisionError` caught by `handle_errors`);
`internalError` = a 500 response (an `IndexError`/`KeyError` caught by the
generic `except Exception` branch of `handle_errors`). -/
inductive ParseResult : Type
  | ok (c : CorrectAnswer)
  | badRequest (msg : String)
  | internalError
  deriving DecidableEq

/-- The `operations` dictionary of `validate_quiz`; `none` models the
`KeyError` on an unknown operation. -/
def lookup_op (op : String) (a b : ℤ) : Option ℤ :=
  if op = "add" then some (a + b)
  else if op = "subtract" then some (a - b)
  else if op = "multiply" then some (a * b)
  else none

/-- The `arithmetic` branch: `a, b, op = int(parts[1]), int(parts[2]),
parts[3]` evaluated left to right, then the dictionary lookup. -/
def parse_arith (parts : List String) : ParseResult :=
  match parts[1]? with
  | none => .internalError
  | some s1 =>
    match pyInt? s1 with
    | none => .badRequest "Invalid input"
    | some a =>
      match parts[2]? with
      | none => .internalError
      | some s2 =>
        match pyInt? s2 with
        | none => .badRequest "Invalid input"
        | some b =>
          match parts[3]? with
          | none => .internalError
          | some op =>
            match lookup_op op a b with
            | none => .internalError
            | some v => .ok (.num (v : ℚ))

/-- The `algebra` branch: `a, b = int(parts[1]), int(parts[2])`, then
`correct_answer = -b / a` (`ZeroDivisionError` when `a = 0`). -/
def parse_algebra (parts : List String) : ParseResult :=
  match parts[1]? with
  | none => .internalError
  | some s1 =>
    match pyInt? s1 with
    | none => .badRequest "Invalid input"
    | some a =>
      match parts[2]? with
      | none => .internalError
      | some s2 =>
        match pyInt? s2 with
        | none => .badRequest "Invalid input"
        | some b =>
          if a = 0 then .badRequest "Division by zero"
          else .ok (.num (-(b : ℚ) / (a : ℚ)))

/-- The `circle` branch: `radius = int(parts[1])`. -/
def parse_circle (parts : List String) : ParseResult :=
  match parts[1]? with
  | none => .internalError
  | some s1 =>
    match pyInt? s1 with
    | none => .badRequest "Invalid input"
    | some r => .ok (.circleArea r)

/-- Re-derivation of the correct answer from the answer-key fields
(`parts = answer_id.split('_')`; `split` always yields at least one field,
so `parts[0]` cannot fail on a real request). -/
def parse_answer_key (parts : List String) : ParseResult :=
  match parts[0]? with
  | none => .internalError
  | some fam =>
    if fam = "arithmetic" then parse_arith parts
    else if fam = "algebra" then parse_algebra parts
    else if fam = "circle" then parse_circle parts
    else .badRequest "Invalid answer_id"

/-- The numeric value of a re-derived correct answer. -/
noncomputable def correctValue : CorrectAnswer → ℝ
  | .num q => (q : ℚ)
  | .circleArea r => round2 (Real.pi * (r : ℝ) ^ 2)

open Classical in
/-- `abs(user_answer - correct_answer) < 0.01`. -/
noncomputable def is_correct (user correct : ℝ) : Bool :=
  if |user - correct| < 1 / 100 then true else false

/-- Outcome of `POST /api/quiz/validate`. -/
inductive ValidateOutcome : Type
  | verdict (correct : Bool) (user correct_answer : ℝ)
  | badRequest (msg : String)
  | internalError

/-- `validate_quiz` on the answer-key fields and the user's numeric answer:
re-derives the correct answer and judges it with absolute tolerance `0.01`;
the reported `correct_answer` is rounded to 6 decimal places. -/
noncomputable def validate_quiz (parts : List String) (user : ℝ) : ValidateOutcome :=
  match parse_answer_key parts with
  | .ok c => .verdict (is_correct user (correctValue c)) user (round6 (correctValue c))
  | .badRequest m => .badRequest m
  | .internalError => .internalError

/-- The verdict flag of an outcome, when one was computed. -/
def verdictOf : ValidateOutcome → Option Bool
  | .verdict b _ _ => some b
  | _ => none

/-- The request-level wrapper of `validate_quiz`: `answer_id` defaults to
`''` (whose field list is `[""]`) and `answer` defaults to `0`. -/
noncomputable def validate_quiz_request (parts? : Option (List String)) (answer? : Option ℝ) :
    ValidateOutcome :=
  validate_quiz (parts?.getD [""]) (answer?.getD 0)

/-! ### History (`get_history`, lines 466-473)

`limit = int(request.args.get('limit', 20))` — the handler has no
`@handle_errors` decorator, so a `ValueError` from `int(...)` propagates out
of the view uncaught.  The returned window is `query_history[-limit:]`. -/

/-- Python `l[-limit:]`: for `limit > 0` the last `min(limit, len(l))`
elements; for `limit ≤ 0` the slice starts at index `-limit` from the front,
so `limit = 0` yields the whole list. -/
def pyTailSlice {α : Type} (l : List α) (limit : ℤ) : List α :=
  if 0 < limit then l.drop (l.length - limit.toNat) else l.drop (-limit).toNat

/-- Outcome of `GET /api/history`. -/
inductive HistoryOutcome (α : Type) : Type
  | ok (total : ℕ) (history : List α)
  | uncaughtValueError
  deriving DecidableEq

/-- `get_history`: parses the `limit` query parameter (default `20`) and
returns the slice; a malformed `limit` raises an uncaught `ValueError`. -/
def get_history {α : Type} (hist : List α) (limitArg : Option String) : HistoryOutcome α :=
  match limitArg with
  | none => .ok hist.length (pyTailSlice hist 20)
  | some s =>
    match pyInt? s with
    | none => .uncaughtValueError
    | some n => .ok hist.length (pyTailSlice hist n)

/-! ### The `handle_errors` decorator (lines 16-27) and response channels -/

/-- Python exceptions relevant to the service. -/
inductive PyExc : Type
  | valueError (msg : String)
  | zeroDivisionError
  | indexError
  | keyError
  | otherExc (msg : String)
  deriving DecidableEq

/-- What the client sees: a structured JSON body with a status code, or the
framework's fallback error page (unhandled exception / handler returned
`None`). -/
inductive HttpOutcome : Type
  | jsonResp (status : ℕ)
  | frameworkErrorPage
  deriving DecidableEq

/-- `handle_errors` around a handler body that either raises, returns a
response with a status code, or returns `None`: `ValueError` and
`ZeroDivisionError` become 400, every other exception becomes 500, and a
returned `None` passes through to the framework (which fails the request
outside the decorator). -/
def handle_errors (body : Except PyExc (Option ℕ)) : HttpOutcome :=
  match body with
  | .ok (some status) => .jsonResp status
  | .ok none => .frameworkErrorPage
  | .error (.valueError _) => .jsonResp 400
  | .error .zeroDivisionError => .jsonResp 400
  | .error _ => .jsonResp 500

/-- The HTTP outcome of `GET /api/quiz` for a resolved `quiz_type` and the
random draws: the handler body never raises, but returns `None` for an
unrecognized type. -/
def quiz_endpoint_outcome (quiz_type : String) (a1 b1 : ℤ) (op : String) (a2 b2 r : ℤ) :
    HttpOutcome :=
  handle_errors (.ok ((generate_quiz quiz_type a1 b1 op a2 b2 r).map fun _ => 200))

/-- The HTTP outcome of `GET /api/history`: the handler is not wrapped in
`handle_errors`, so the `ValueError` of a malformed `limit` reaches the
framework. -/
def history_endpoint_outcome {α : Type} (hist : List α) (limitArg : Option String) :
    HttpOutcome :=
  match get_history hist limitArg with
  | .ok _ _ => .jsonResp 200
  | .uncaughtValueError => .frameworkErrorPage

/-! ### Helper lemmas -/

/-- Rounding to 6 decimal places moves a rational by at most `5e-7`. -/
theorem abs_round6q_sub (q : ℚ) : |round6q q - q| ≤ 1 / 2000000 := by
  have h := abs_sub_round (q * 1000000)
  have heq : round6q q - q = ((round (q * 1000000) : ℤ) - q * 1000000) / 1000000 := by
    rw [round6q]; ring
  rw [heq, abs_div, abs_sub_comm]
  rw [show |(1000000 : ℚ)| = 1000000 by norm_num]
  linarith

/-- `log_query` folded from a history of at most 100 entries keeps exactly
the most recent 100 entries, in arrival order. -/
theorem foldl_log_query_drop {α : Type} (es : List α) :
    ∀ init : List α, init.length ≤ 100 →
      List.foldl log_query init es = (init ++ es).drop ((init ++ es).length - 100) := by
  induction es with
  | nil =>
    intro init h
    simp [Nat.sub_eq_zero_of_le h]
  | cons e es ih =>
    intro init h
    rw [List.foldl_cons]
    rcases lt_or_le init.length 100 with hlt | hge
    · have hcond : ¬ 100 < (init ++ [e]).length := by
        simp only [List.length_append, List.length_cons, List.length_nil]
        omega
      have hstep : log_query init e = init ++ [e] := by
        rw [log_query, if_neg hcond]
      rw [hstep, ih _ (by simp only [List.length_append, List.length_cons, List.length_nil]; omega)]
      simp [List.append_assoc]
    · have h100 : init.length = 100 := le_antisymm h hge
      have hcond : 100 < (init ++ [e]).length := by
        simp only [List.length_append, List.length_cons, List.length_nil]
        omega
      have hstep : log_query init e = (init ++ [e]).drop 1 := by
        rw [log_query, if_pos hcond]
      rw [hstep]
      have hlen : ((init ++ [e]).drop 1).length ≤ 100 := by
        simp only [List.length_drop, List.length_append, List.length_cons, List.length_nil]
        omega
      rw [ih _ hlen]
      have hone : 1 ≤ (init ++ [e]).length := by
        simp only [List.length_append, List.length_cons, List.length_nil]
        omega
      have hx : (init ++ [e]).drop 1 ++ es = (init ++ e :: es).drop 1 := by
        rw [List.drop_append_of_le_length (by omega : 1 ≤ init.length),
          List.drop_append_of_le_length (by omega : 1 ≤ init.length), List.append_assoc,
          List.singleton_append]
      rw [hx, List.drop_drop]
      congr 1
      simp only [List.length_append, List.length_drop, List.length_cons, List.length_nil]
      omega

/-- C2: the audit log always holds between 0 and 100 entries; after any
sequence of appends starting from the empty log, exactly the most recent 100
entries remain, in arrival order (`es.drop (es.length - 100)` is the
identity when at most 100 entries were appended and the last 100 appended,
oldest first, otherwise — in particular 150 appends leave the last 100). -/
theorem audit_log_bounded_fifo {α : Type} (es : List α) :
    List.foldl log_query ([] : List α) es = es.drop (es.length - 100) ∧
    (List.foldl log_query ([] : List α) es).length ≤ 100 := by
  have h := foldl_log_query_drop es [] (by simp)
  simp only [List.nil_append] at h
  refine ⟨h, ?_⟩
  rw [h, List.length_drop]
  omega

/-- C4 counterexample: for `a = 3000000`, `b = 1` the reported solution is
`x = 0` (the exact root `-1/3000000` rounds to 6 decimal places as `0`), and
the residual `a·x + b = 1` is not within `1e-6` of `0`. -/
theorem linear_residual_counterexample :
    solve_linear 3000000 1 = some 0 ∧ ¬ |(3000000 : ℚ) * 0 + 1| ≤ 1 / 1000000 := by
  constructor
  · have hx : round6q (-(1 : ℚ) / 3000000) = 0 := by
      rw [round6q, round_eq]
      norm_num
    rw [solve_linear, if_neg (by norm_num), hx]
  · norm_num

/-- C4 amended: for `a ≠ 0` the solver returns `x = round(-b/a, 6)`, whose
distance from the exact root is at most `5e-7`, so the residual `a·x + b` is
within `|a|·5e-7` of `0` (not within `1e-6` unconditionally). -/
theorem linear_solution_rounding (a b : ℚ) (ha : a ≠ 0) :
    ∃ x, solve_linear a b = some x ∧ x = round6q (-b / a) ∧
      |x - -b / a| ≤ 1 / 2000000 ∧ |a * x + b| ≤ |a| / 2000000 := by
  refine ⟨round6q (-b / a), by rw [solve_linear, if_neg ha], rfl, abs_round6q_sub _, ?_⟩
  have hresid : a * round6q (-b / a) + b = a * (round6q (-b / a) - -b / a) := by
    field_simp
    ring
  rw [hresid, abs_mul]
  calc |a| * |round6q (-b / a) - -b / a| ≤ |a| * (1 / 2000000) :=
        mul_le_mul_of_nonneg_left (abs_round6q_sub _) (abs_nonneg a)
    _ = |a| / 2000000 := by ring

/-- Witness for `linear_solution_rounding` at `a = 2`, `b = 1`. -/
theorem linear_solution_rounding_witness :
    ∃ x, solve_linear 2 1 = some x ∧ x = round6q (-1 / 2) ∧
      |x - -1 / 2| ≤ 1 / 2000000 ∧ |2 * x + 1| ≤ |(2 : ℚ)| / 2000000 :=
  linear_solution_rounding 2 1 (by norm_num)

/-- C1: for `a ≠ 0` the quadratic solver responds, displays
`round(Δ, 6)`, and the solutions object is determined by the sign of the
exact unrounded discriminant `Δ = b² - 4ac`: `Δ > 0` iff two real roots
`round((-b ± √Δ)/(2a), 6)`, `Δ = 0` iff the single real root
`round(-b/(2a), 6)`, and `Δ < 0` iff the conjugate pair with real part
`round(-b/(2a), 6)` and imaginary part `round(√(-Δ)/(2a), 6)`. -/
theorem quadratic_branches_on_exact_discriminant (a b c : ℚ) (ha : a ≠ 0) :
    ∃ resp : QuadResponse, solve_quadratic a b c = some resp ∧
      resp.discriminant = round6q (b ^ 2 - 4 * a * c) ∧
      (0 < b ^ 2 - 4 * a * c ↔
        resp.solutions =
          .twoReal
            (round6 ((-(b : ℝ) + Real.sqrt ((b ^ 2 - 4 * a * c : ℚ) : ℝ)) / (2 * a)))
            (round6 ((-(b : ℝ) - Real.sqrt ((b ^ 2 - 4 * a * c : ℚ) : ℝ)) / (2 * a)))) ∧
      (b ^ 2 - 4 * a * c = 0 ↔ resp.solutions = .oneReal (round6 (-(b : ℝ) / (2 * a)))) ∧
      (b ^ 2 - 4 * a * c < 0 ↔
        resp.solutions =
          .complexPair (round6 (-(b : ℝ) / (2 * a)))
            (round6 (Real.sqrt (-((b ^ 2 - 4 * a * c : ℚ) : ℝ)) / (2 * a)))) := by
  simp only [solve_quadratic, if_neg ha]
  rcases lt_trichotomy (b ^ 2 - 4 * a * c) 0 with hd | hd | hd
  · rw [if_neg (by linarith : ¬ (0 : ℚ) < b ^ 2 - 4 * a * c),
      if_neg (by intro h0; linarith : ¬ b ^ 2 - 4 * a * c = (0 : ℚ))]
    refine ⟨_, rfl, rfl, ?_, ?_, ?_⟩
    · exact ⟨fun h0 => absurd h0 (by linarith), fun h => by simp at h⟩
    · exact ⟨fun h0 => absurd h0 (by linarith), fun h => by simp at h⟩
    · exact ⟨fun _ => rfl, fun _ => hd⟩
  · rw [if_neg (by simp [hd] : ¬ (0 : ℚ) < b ^ 2 - 4 * a * c), if_pos hd]
    refine ⟨_, rfl, rfl, ?_, ?_, ?_⟩
    · exact ⟨fun h0 => absurd h0 (by linarith), fun h => by simp at h⟩
    · exact ⟨fun _ => rfl, fun _ => hd⟩
    · exact ⟨fun h0 => absurd h0 (by linarith), fun h => by simp at h⟩
  · rw [if_pos hd]
    refine ⟨_, rfl, rfl, ?_, ?_, ?_⟩
    · exact ⟨fun _ => rfl, fun _ => hd⟩
    · exact ⟨fun h0 => absurd h0 (by linarith), fun h => by simp at h⟩
    · exact ⟨fun h0 => absurd h0 (by linarith), fun h => by simp at h⟩

/-- Witness for `quadratic_branches_on_exact_discriminant` at
`a = 1, b = 2, c = 1` (discriminant zero). -/
theorem quadratic_branches_witness :
    ∃ resp : QuadResponse, solve_quadratic 1 2 1 = some resp ∧
      resp.discriminant = round6q (2 ^ 2 - 4 * 1 * 1) := by
  obtain ⟨resp, h1, h2, -⟩ := quadratic_branches_on_exact_discriminant 1 2 1 (by norm_num)
  exact ⟨resp, h1, h2⟩

/-- An `Option`-valued guard is populated exactly when the rejection
condition fails. -/
theorem isSome_guard {α : Type} {c : Prop} [Decidable c] {x : α} :
    (if c then (none : Option α) else some x).isSome = true ↔ ¬ c := by
  split <;> simp [*]

/-- C3 counterexample: a triangle request with supplied negative `side_a`
is not rejected — metrics are returned although a defining dimension is
negative. -/
theorem triangle_negative_side_counterexample :
    (triangle 1 1 (some (-5)) (some 1)).isSome = true := by
  rw [triangle]
  simp only [Option.getD_some]
  rw [if_neg (by norm_num)]
  rfl

/-- C3 amended: each geometry handler rejects a request (with a 400 error,
before computing any metric) exactly when one of the dimensions it checks is
zero or negative; the checked dimensions are the circle radius, the
rectangle length and width, the triangle base and height (but not `side_a`
or `side_b`, which are never validated), the cube side, and the sphere
radius. -/
theorem geometry_dimension_validation (r l w b h : ℚ) (sa sb : Option ℚ) (s ρ : ℚ) :
    ((circle r).isSome ↔ 0 < r) ∧
    ((rectangle l w).isSome ↔ 0 < l ∧ 0 < w) ∧
    ((triangle b h sa sb).isSome ↔ 0 < b ∧ 0 < h) ∧
    ((cube s).isSome ↔ 0 < s) ∧
    ((sphere ρ).isSome ↔ 0 < ρ) := by
  refine ⟨?_, ?_, ?_, ?_, ?_⟩
  · rw [circle, isSome_guard, not_le]
  · rw [rectangle, isSome_guard, not_or, not_le, not_le]
  · simp only [triangle, Option.getD_some]
    rw [isSome_guard, not_or, not_le, not_le]
  · rw [cube, isSome_guard, not_le]
  · rw [sphere, isSome_guard, not_le]

/-- Every member of a list of naturals is bounded by `foldr max 0`. -/
theorem mem_le_foldr_max {x : ℕ} {xs : List ℕ} (h : x ∈ xs) : x ≤ xs.foldr max 0 := by
  induction xs with
  | nil => simp at h
  | cons y ys ih =>
    simp only [List.foldr_cons]
    rcases List.mem_cons.mp h with rfl | h
    · exact le_max_left _ _
    · exact le_trans (ih h) (le_max_right _ _)

/-- `foldr max 0` of a list of naturals is zero or one of its members. -/
theorem foldr_max_zero_or_mem (xs : List ℕ) :
    xs.foldr max 0 = 0 ∨ xs.foldr max 0 ∈ xs := by
  induction xs with
  | nil => left; rfl
  | cons y ys ih =>
    simp only [List.foldr_cons]
    rcases le_total y (ys.foldr max 0) with h | h
    · rw [max_eq_right h]
      rcases ih with h0 | hm
      · left; exact h0
      · right; exact List.mem_cons_of_mem _ hm
    · rw [max_eq_left h]
      right
      exact List.mem_cons_self _ _

/-- Every multiplicity in the dataset is bounded by `maxFreq`. -/
theorem count_le_maxFreq {α : Type} [DecidableEq α] {l : List α} {x : α} (h : x ∈ l) :
    l.count x ≤ maxFreq l :=
  mem_le_foldr_max (List.mem_map_of_mem _ h)

/-- On a non-empty dataset `maxFreq` is attained by some member. -/
theorem maxFreq_attained {α : Type} [DecidableEq α] (l : List α) (hl : l ≠ []) :
    ∃ x ∈ l, l.count x = maxFreq l := by
  rcases foldr_max_zero_or_mem (l.map fun x => l.count x) with h0 | hm
  · obtain ⟨y, ys, rfl⟩ := List.exists_cons_of_ne_nil hl
    have h1 : (y :: ys).count y ≤ maxFreq (y :: ys) :=
      count_le_maxFreq (List.mem_cons_self y ys)
    have h2 : 0 < (y :: ys).count y := by
      rw [List.count_pos_iff]
      exact List.mem_cons_self y ys
    rw [maxFreq] at h1 ⊢
    omega
  · obtain ⟨x, hx, hcount⟩ := List.mem_map.mp hm
    exact ⟨x, hx, hcount⟩

/-- C7: on a non-empty dataset the statistics endpoint computes its mode
field, which is the string `"No mode"` exactly when every element of the
dataset is distinct; otherwise it is the list of all values tied for the
highest frequency (one representative per distinct value). -/
theorem mode_no_mode_iff {α : Type} [DecidableEq α] (l : List α) (hl : l ≠ []) :
    statisticsMode l = some (modeField l) ∧
    (modeField l = .inr "No mode" ↔ l.Nodup) ∧
    (¬ l.Nodup →
      modeField l = .inl (modeVal l) ∧
      ∀ x, x ∈ modeVal l ↔ x ∈ l ∧ ∀ y ∈ l, l.count y ≤ l.count x) := by
  have hmem : ∀ x, x ∈ modeVal l ↔ x ∈ l ∧ ∀ y ∈ l, l.count y ≤ l.count x := by
    intro x
    rw [modeVal, List.mem_filter, List.mem_dedup, beq_iff_eq]
    constructor
    · rintro ⟨hx, hmax⟩
      exact ⟨hx, fun y hy => hmax ▸ count_le_maxFreq hy⟩
    · rintro ⟨hx, hbound⟩
      refine ⟨hx, le_antisymm (count_le_maxFreq hx) ?_⟩
      obtain ⟨x0, hx0, hc0⟩ := maxFreq_attained l hl
      rw [← hc0]
      exact hbound x0 hx0
  have hiff : modeField l = .inr "No mode" ↔ l.Nodup := by
    constructor
    · intro hmode
      have hcond : ¬ (modeVal l).length < l.length := by
        intro hc
        rw [modeField, if_pos hc] at hmode
        exact Sum.noConfusion hmode
      have hchain : l.dedup.length = l.length :=
        le_antisymm ((List.dedup_sublist l).length_le) (by
          calc l.length ≤ (modeVal l).length := le_of_not_lt hcond
            _ ≤ l.dedup.length := List.length_filter_le _ _)
      rw [← List.dedup_eq_self]
      exact (List.dedup_sublist l).eq_of_length hchain
    · intro hnd
      obtain ⟨x0, hx0, hc0⟩ := maxFreq_attained l hl
      have hone : maxFreq l = 1 := by
        rw [← hc0]
        exact List.count_eq_one_of_mem hnd hx0
      have hval : modeVal l = l.dedup := by
        rw [modeVal, List.filter_eq_self]
        intro a ha
        rw [beq_iff_eq, hone]
        exact List.count_eq_one_of_mem hnd (List.mem_dedup.mp ha)
      have hlen : (modeVal l).length = l.length := by
        rw [hval, List.dedup_eq_self.mpr hnd]
      rw [modeField, if_neg (by rw [hlen]; exact lt_irrefl _)]
  refine ⟨?_, hiff, ?_⟩
  · rw [statisticsMode, if_neg (by simpa [List.isEmpty_iff] using hl)]
  · intro hnd
    refine ⟨?_, hmem⟩
    rcases lt_or_le (modeVal l).length l.length with hc | hc
    · rw [modeField, if_pos hc]
    · exact absurd (hiff.mp (by rw [modeField, if_neg (not_lt.mpr hc)])) hnd

/-- Witness for `mode_no_mode_iff` on the dataset `[1, 1, 2]`. -/
theorem mode_no_mode_iff_witness :
    statisticsMode ([1, 1, 2] : List ℕ) = some (modeField [1, 1, 2]) ∧
    (modeField ([1, 1, 2] : List ℕ) = .inr "No mode" ↔ ([1, 1, 2] : List ℕ).Nodup) := by
  obtain ⟨h1, h2, -⟩ := mode_no_mode_iff ([1, 1, 2] : List ℕ) (by decide)
  exact ⟨h1, h2⟩

/-- C8 counterexample: `GET /api/history?limit=0` on a one-entry log returns
the whole log, not zero entries. -/
theorem history_limit_zero_counterexample :
    get_history ([0] : List ℕ) (some "0") = .ok 1 [0] ∧
    get_history ([0] : List ℕ) (some "0") ≠ .ok 1 [] := by
  constructor <;> decide

/-- C8 amended: for `N ≥ 1` the history endpoint returns the most recent
`min(N, length)` entries in chronological order (a suffix of the log);
`N = 0` returns the entire log (Python `l[-0:]` is `l[0:]`); an absent
`limit` defaults to 20. -/
theorem history_limit_window {α : Type} (hist : List α) (N : ℕ) (hN : 1 ≤ N) :
    pyTailSlice hist (N : ℤ) = hist.drop (hist.length - N) ∧
    (pyTailSlice hist (N : ℤ)).length = min N hist.length ∧
    pyTailSlice hist (N : ℤ) <:+ hist ∧
    pyTailSlice hist 0 = hist ∧
    get_history hist none = .ok hist.length (pyTailSlice hist 20) := by
  have h1 : pyTailSlice hist (N : ℤ) = hist.drop (hist.length - N) := by
    rw [pyTailSlice, if_pos (by exact_mod_cast hN), Int.toNat_natCast]
  refine ⟨h1, ?_, ?_, ?_, rfl⟩
  · rw [h1, List.length_drop]
    omega
  · rw [h1]
    exact List.drop_suffix _ _
  · rw [pyTailSlice, if_neg (by norm_num)]
    norm_num

/-- Witness for `history_limit_window` on a three-entry log with `N = 2`. -/
theorem history_limit_window_witness :
    pyTailSlice ([10, 20, 30] : List ℕ) ((2 : ℕ) : ℤ) = [10, 20, 30].drop ([10, 20, 30].length - 2) ∧
    (pyTailSlice ([10, 20, 30] : List ℕ) ((2 : ℕ) : ℤ)).length = min 2 [10, 20, 30].length := by
  obtain ⟨h1, h2, -⟩ := history_limit_window ([10, 20, 30] : List ℕ) 2 (by norm_num)
  exact ⟨h1, h2⟩

/-- C9: the two cited requests do crash out of the JSON error contract —
`GET /api/quiz?type=calculus` makes the handler return `None` (the framework
then fails the request outside `handle_errors`), and
`GET /api/history?limit=abc` raises an uncaught `ValueError` (the handler
has no `handle_errors` decorator) — while any exception raised inside a
`handle_errors`-wrapped handler does become a structured 400 or 500 JSON
response. -/
theorem unhandled_crash_endpoints :
    quiz_endpoint_outcome "calculus" 1 1 "add" 1 0 1 = .frameworkErrorPage ∧
    history_endpoint_outcome ([] : List ℕ) (some "abc") = .frameworkErrorPage ∧
    ∀ e : PyExc,
      handle_errors (.error e) = .jsonResp 400 ∨ handle_errors (.error e) = .jsonResp 500 := by
  refine ⟨by decide, by decide, ?_⟩
  intro e
  cases e <;> simp [handle_errors]

/-- `int(str(n))` round-trips for the non-negative generator range. -/
theorem pyInt_toString_nat_le100 :
    ∀ n : ℕ, n ≤ 100 → pyInt? (toString ((n : ℤ))) = some ((n : ℤ)) := by decide

/-- `int(str(-n))` round-trips for the negative generator range. -/
theorem pyInt_toString_neg_le100 :
    ∀ n : ℕ, n ≤ 100 → pyInt? (toString (-(n : ℤ))) = some (-(n : ℤ)) := by decide

/-- Python `int(str(z))` round-trips on every quiz parameter range. -/
theorem pyInt_toString_small (z : ℤ) (h1 : -100 ≤ z) (h2 : z ≤ 100) :
    pyInt? (toString z) = some z := by
  rcases le_or_lt 0 z with hz | hz
  · have hze : ((z.toNat : ℕ) : ℤ) = z := Int.toNat_of_nonneg hz
    rw [← hze]
    exact pyInt_toString_nat_le100 z.toNat (by omega)
  · have hze : -(((-z).toNat : ℕ) : ℤ) = z := by omega
    rw [← hze]
    exact pyInt_toString_neg_le100 (-z).toNat (by omega)

/-- Submitting exactly the correct answer passes the `0.01` tolerance. -/
theorem is_correct_self (c : ℝ) : is_correct c c = true := by
  have h : |c - c| < 1 / 100 := by
    rw [sub_self, abs_zero]
    norm_num
  rw [is_correct, if_pos h]

/-- Submitting the correct answer plus one fails the `0.01` tolerance. -/
theorem is_correct_add_one (c : ℝ) : is_correct (c + 1) c = false := by
  have h : ¬ |c + 1 - c| < 1 / 100 := by
    rw [add_sub_cancel_left, abs_one]
    norm_num
  rw [is_correct, if_neg h]

/-- Evaluation of the `arithmetic` branch on a well-formed field list. -/
theorem parse_arith_eval (p0 s1 s2 op : String) (a b : ℤ)
    (h1 : pyInt? s1 = some a) (h2 : pyInt? s2 = some b) :
    parse_arith [p0, s1, s2, op] =
      (match lookup_op op a b with
        | none => ParseResult.internalError
        | some v => .ok (.num (v : ℚ))) := by
  simp [parse_arith, h1, h2]

/-- Evaluation of the `algebra` branch on a well-formed field list. -/
theorem parse_algebra_eval (p0 s1 s2 : String) (a b : ℤ)
    (h1 : pyInt? s1 = some a) (h2 : pyInt? s2 = some b) :
    parse_algebra [p0, s1, s2] =
      (if a = 0 then .badRequest "Division by zero" else .ok (.num (-(b : ℚ) / (a : ℚ)))) := by
  simp [parse_algebra, h1, h2]

/-- Evaluation of the `circle` branch on a well-formed field list. -/
theorem parse_circle_eval (p0 s1 : String) (r : ℤ) (h1 : pyInt? s1 = some r) :
    parse_circle [p0, s1] = .ok (.circleArea r) := by
  simp [parse_circle, h1]

/-- C5: for every quiz question the generator can produce (any family, any
parameters in the drawn ranges), the answer key parses back, submitting the
exact correct answer re-derived from it yields `correct = true`, and
submitting the correct answer plus 1 yields `correct = false`. -/
theorem quiz_round_trip (quiz_type : String) (a1 b1 : ℤ) (op : String) (a2 b2 r : ℤ)
    (hqt : quiz_type = "arithmetic" ∨ quiz_type = "algebra" ∨ quiz_type = "geometry")
    (ha1 : 1 ≤ a1) (ha1' : a1 ≤ 100) (hb1 : 1 ≤ b1) (hb1' : b1 ≤ 100)
    (hop : op = "add" ∨ op = "subtract" ∨ op = "multiply")
    (ha2 : 1 ≤ a2) (ha2' : a2 ≤ 10) (hb2 : -20 ≤ b2) (hb2' : b2 ≤ 20)
    (hr : 1 ≤ r) (hr' : r ≤ 20) :
    ∃ (resp : QuizResponse) (c : CorrectAnswer),
      generate_quiz quiz_type a1 b1 op a2 b2 r = some resp ∧
      parse_answer_key resp.answer_id = .ok c ∧
      verdictOf (validate_quiz resp.answer_id (correctValue c)) = some true ∧
      verdictOf (validate_quiz resp.answer_id (correctValue c + 1)) = some false := by
  have hA1 := pyInt_toString_small a1 (by omega) (by omega)
  have hB1 := pyInt_toString_small b1 (by omega) (by omega)
  have hA2 := pyInt_toString_small a2 (by omega) (by omega)
  have hB2 := pyInt_toString_small b2 (by omega) (by omega)
  have hR := pyInt_toString_small r (by omega) (by omega)
  rcases hqt with hq | hq | hq <;> subst hq
  · obtain ⟨v, hv⟩ : ∃ v, lookup_op op a1 b1 = some v := by
      rcases hop with ho | ho | ho <;> subst ho <;> exact ⟨_, rfl⟩
    have hparse : parse_answer_key ["arithmetic", toString a1, toString b1, op] =
        .ok (.num (v : ℚ)) := by
      have hkey : parse_answer_key ["arithmetic", toString a1, toString b1, op] =
          parse_arith ["arithmetic", toString a1, toString b1, op] := by
        simp [parse_answer_key]
      rw [hkey, parse_arith_eval _ _ _ _ _ _ hA1 hB1, hv]
    refine ⟨⟨"arithmetic", ["arithmetic", toString a1, toString b1, op], "easy"⟩,
      .num (v : ℚ), by simp [generate_quiz], hparse, ?_, ?_⟩
    · simp [validate_quiz, hparse, verdictOf, is_correct_self]
    · simp [validate_quiz, hparse, verdictOf, is_correct_add_one]
  · have hparse : parse_answer_key ["algebra", toString a2, toString b2] =
        .ok (.num (-(b2 : ℚ) / (a2 : ℚ))) := by
      have hkey : parse_answer_key ["algebra", toString a2, toString b2] =
          parse_algebra ["algebra", toString a2, toString b2] := by
        simp [parse_answer_key]
      rw [hkey, parse_algebra_eval _ _ _ _ _ hA2 hB2, if_neg (by omega : ¬ a2 = 0)]
    refine ⟨⟨"linear_equation", ["algebra", toString a2, toString b2], "medium"⟩,
      .num (-(b2 : ℚ) / (a2 : ℚ)), by simp [generate_quiz], hparse, ?_, ?_⟩
    · simp [validate_quiz, hparse, verdictOf, is_correct_self]
    · simp [validate_quiz, hparse, verdictOf, is_correct_add_one]
  · have hparse : parse_answer_key ["circle", toString r] = .ok (.circleArea r) := by
      have hkey : parse_answer_key ["circle", toString r] =
          parse_circle ["circle", toString r] := by
        simp [parse_answer_key]
      rw [hkey, parse_circle_eval _ _ _ hR]
    refine ⟨⟨"geometry", ["circle", toString r], "medium"⟩,
      .circleArea r, by simp [generate_quiz], hparse, ?_, ?_⟩
    · simp [validate_quiz, hparse, verdictOf, is_correct_self]
    · simp [validate_quiz, hparse, verdictOf, is_correct_add_one]

/-- Witness for `quiz_round_trip` at the arithmetic question `2 + 3`. -/
theorem quiz_round_trip_witness :
    ∃ (resp : QuizResponse) (c : CorrectAnswer),
      generate_quiz "arithmetic" 2 3 "add" 1 0 1 = some resp ∧
      parse_answer_key resp.answer_id = .ok c ∧
      verdictOf (validate_quiz resp.answer_id (correctValue c)) = some true ∧
      verdictOf (validate_quiz resp.answer_id (correctValue c + 1)) = some false :=
  quiz_round_trip "arithmetic" 2 3 "add" 1 0 1 (Or.inl rfl) (by norm_num) (by norm_num)
    (by norm_num) (by norm_num) (Or.inl rfl) (by norm_num) (by norm_num) (by norm_num)
    (by norm_num) (by norm_num) (by norm_num)

/-- C6 counterexample: an answer key with a recognized family but an
operation outside the encoded set (`arithmetic_1_2_divide`) produces a 500
internal error (`KeyError` caught by the generic handler), not the claimed
400 invalid-answer-key error. -/
theorem validate_unknown_op_counterexample :
    parse_answer_key ["arithmetic", "1", "2", "divide"] = .internalError ∧
    parse_answer_key ["arithmetic", "1", "2", "divide"] ≠ .badRequest "Invalid answer_id" := by
  constructor <;> decide

/-- C6 amended: an unrecognized family tag is rejected with the 400
`Invalid answer_id` error (and no verdict); a non-numeric parameter field in
a recognized family is rejected with a 400 `Invalid input` error
(`ValueError`); but a token with too few fields (`IndexError`) or an
operation outside the encoded set (`KeyError`) produces a 500 internal
error — still a structured response, never a computed verdict. -/
theorem validate_error_channels (f s1 s2 sbad op : String) (rest : List String) (a b : ℤ)
    (hf : ¬ (f = "arithmetic" ∨ f = "algebra" ∨ f = "circle"))
    (h1 : pyInt? s1 = some a) (h2 : pyInt? s2 = some b)
    (hbad : pyInt? sbad = none)
    (hop : ¬ (op = "add" ∨ op = "subtract" ∨ op = "multiply")) :
    parse_answer_key (f :: rest) = .badRequest "Invalid answer_id" ∧
    (∀ u : ℝ, validate_quiz (f :: rest) u = .badRequest "Invalid answer_id") ∧
    parse_answer_key ["arithmetic", sbad, s2, op] = .badRequest "Invalid input" ∧
    parse_answer_key ["arithmetic", s1] = .internalError ∧
    parse_answer_key ["algebra", s1] = .internalError ∧
    parse_answer_key ["arithmetic", s1, s2, op] = .internalError := by
  push_neg at hf hop
  obtain ⟨hf1, hf2, hf3⟩ := hf
  obtain ⟨hop1, hop2, hop3⟩ := hop
  have hfam : parse_answer_key (f :: rest) = .badRequest "Invalid answer_id" := by
    simp [parse_answer_key, hf1, hf2, hf3]
  have hnone : lookup_op op a b = none := by
    rw [lookup_op, if_neg hop1, if_neg hop2, if_neg hop3]
  refine ⟨hfam, ?_, ?_, ?_, ?_, ?_⟩
  · intro u
    simp [validate_quiz, hfam]
  · simp [parse_answer_key, parse_arith, hbad]
  · simp [parse_answer_key, parse_arith, h1]
  · simp [parse_answer_key, parse_algebra, h1]
  · simp [parse_answer_key, parse_arith, h1, h2, hnone]

/-- Witness for `validate_error_channels` at concrete malformed keys. -/
theorem validate_error_channels_witness :
    parse_answer_key ["quadratic", "1"] = .badRequest "Invalid answer_id" ∧
    parse_answer_key ["arithmetic", "x", "2", "divide"] = .badRequest "Invalid input" ∧
    parse_answer_key ["arithmetic", "1"] = .internalError := by
  obtain ⟨hA, -, hC, hD, -, -⟩ :=
    validate_error_channels "quadratic" "1" "2" "x" "divide" ["1"] 1 2 (by decide) (by decide)
      (by decide) (by decide) (by decide)
  exact ⟨hA, hC, hD⟩

/-- C10: a validate request without an `answer` field is not rejected — the
user answer defaults to `0` and is judged normally, so whenever the token
parses, the verdict is `correct = true` exactly when the re-derived correct
answer is within `0.01` of `0`, and `correct = false` otherwise. -/
theorem validate_missing_answer_defaults_zero (parts : List String) (c : CorrectAnswer)
    (hc : parse_answer_key parts = .ok c) :
    validate_quiz_request (some parts) none = validate_quiz parts 0 ∧
    (verdictOf (validate_quiz_request (some parts) none) = some true ↔
      |correctValue c| < 1 / 100) ∧
    (verdictOf (validate_quiz_request (some parts) none) = some false ↔
      ¬ |correctValue c| < 1 / 100) := by
  have heq : validate_quiz_request (some parts) none = validate_quiz parts 0 := rfl
  have hver : validate_quiz parts 0 =
      .verdict (is_correct 0 (correctValue c)) 0 (round6 (correctValue c)) := by
    simp [validate_quiz, hc]
  by_cases h : |correctValue c| < 1 / 100
  · have hb : is_correct 0 (correctValue c) = true := by
      rw [is_correct, if_pos (by rwa [zero_sub, abs_neg])]
    refine ⟨heq, ?_, ?_⟩ <;> rw [heq, hver, hb] <;> simp only [verdictOf]
    · exact iff_of_true trivial h
    · exact ⟨fun hx => absurd hx (by simp), fun hn => absurd h hn⟩
  · have hb : is_correct 0 (correctValue c) = false := by
      rw [is_correct, if_neg (by rwa [zero_sub, abs_neg])]
    refine ⟨heq, ?_, ?_⟩ <;> rw [heq, hver, hb] <;> simp only [verdictOf]
    · exact ⟨fun hx => absurd hx (by simp), fun hp => absurd hp h⟩
    · exact iff_of_true trivial h

/-- Witness for `validate_missing_answer_defaults_zero` on the token
`algebra_3_0` (correct answer `0`). -/
theorem validate_missing_answer_witness :
    validate_quiz_request (some ["algebra", "3", "0"]) none =
      validate_quiz ["algebra", "3", "0"] 0 ∧
    (verdictOf (validate_quiz_request (some ["algebra", "3", "0"]) none) = some true ↔
      |correctValue (.num (-((0 : ℤ) : ℚ) / ((3 : ℤ) : ℚ)))| < 1 / 100) := by
  have hp3 : pyInt? "3" = some 3 := by decide
  have hp0 : pyInt? "0" = some 0 := by decide
  obtain ⟨h1, h2, -⟩ :=
    validate_missing_answer_defaults_zero ["algebra", "3", "0"]
      (.num (-((0 : ℤ) : ℚ) / ((3 : ℤ) : ℚ)))
      (by simp [parse_answer_key, parse_algebra, hp3, hp0])
  exact ⟨h1, h2⟩

end MathForge
